import Mathlib

/-!
# Verification of the couchclaude terminal-relay engine

A shallow embedding, in Lean 4, of the screen-scraping and relay engine of
the `couchclaude` repository (`poll.py`, `tmux_utils.py`, `notify.py`),
together with proofs and refutations of the frozen specification claims.

Modelling conventions:

* Python strings are Lean `String`s; most functions are written over
  `List Char` (`String.data`) and wrapped.
* Python regular-expression *searches* are modelled by executable Boolean
  functions over the text.  All patterns in the source are alternations of
  literal phrases separated by `.*`/`.*?` (which never cross a newline), so
  Boolean search semantics reduce to ordered-substring tests inside single
  lines; character classes are translated literally.  `\d` is modelled as
  ASCII digits and `\s` / `str.strip` / `str.isspace` by the Unicode
  whitespace set used by CPython for `str` patterns.
* `unicodedata.category(ch).startswith("C")` is modelled by an explicit
  decidable predicate covering the control (Cc), format (Cf) and
  private-use (Co) ranges; unassigned code points (Cn) are not enumerated.
  None of the proved properties depend on the exact extension of this
  predicate beyond the ASCII control characters.
* MD5 (`hashlib.md5(...).hexdigest()`) is used by the source only as a
  content fingerprint compared for equality; it is modelled by the identity
  function on the hashed text (an injective fingerprint), which preserves
  exactly the equalities the code can observe, assuming no MD5 collisions
  among observed screens.
* Effectful calls (tmux capture / keystroke injection, Telegram sends,
  sleeps, downloads) are modelled as emitted `Action`s; fallible externals
  are driven by explicit Boolean oracles.
-/

/-- Unicode whitespace as recognised by CPython's `str.isspace`, `str.strip`
and the `\s` class in `str` regular expressions. -/
def pyIsSpace (c : Char) : Bool :=
  ['\t', '\n', '\x0b', '\x0c', '\r', '\x1c', '\x1d', '\x1e', '\x1f', ' ',
   '\x85', '\xa0', '\u1680', '\u2028', '\u2029', '\u202f', '\u205f', '\u3000'].contains c
  || decide (0x2000 ≤ c.toNat ∧ c.toNat ≤ 0x200a)

/-- `str.strip()` on a character list: remove leading and trailing whitespace. -/
def pyStripList (l : List Char) : List Char :=
  ((l.dropWhile pyIsSpace).reverse.dropWhile pyIsSpace).reverse

/-- `str.strip()` on a `String`. -/
def pyStrip (s : String) : String :=
  String.mk (pyStripList s.data)

/-- Model of `unicodedata.category(ch).startswith("C")`: the Unicode
control (Cc), format (Cf), and private-use (Co) code points.  Unassigned
code points (category Cn) are not enumerated; the development only relies
on this predicate holding on the ASCII control characters (in particular
on ESC `\x1b`) and failing on printable text. -/
def isCatC (c : Char) : Bool :=
  let n := c.toNat
  decide (n < 0x20 ∨ (0x7f ≤ n ∧ n ≤ 0x9f) ∨ n = 0xad
    ∨ (0x600 ≤ n ∧ n ≤ 0x605) ∨ n = 0x61c ∨ n = 0x6dd ∨ n = 0x70f ∨ n = 0x8e2
    ∨ n = 0x180e ∨ (0x200b ≤ n ∧ n ≤ 0x200f) ∨ (0x202a ≤ n ∧ n ≤ 0x202e)
    ∨ (0x2060 ≤ n ∧ n ≤ 0x2064) ∨ (0x2066 ≤ n ∧ n ≤ 0x206f)
    ∨ n = 0xfeff ∨ (0xfff9 ≤ n ∧ n ≤ 0xfffb)
    ∨ (0xe000 ≤ n ∧ n ≤ 0xf8ff) ∨ n = 0xe0001 ∨ (0xe0020 ≤ n ∧ n ≤ 0xe007f)
    ∨ (0xf0000 ≤ n ∧ n ≤ 0xffffd) ∨ (0x100000 ≤ n ∧ n ≤ 0x10fffd))

/-- The character filter inside `sanitize_text`: keep newline, tab, and any
character whose Unicode category does not start with `C`. -/
def keepChar (c : Char) : Bool :=
  c = '\n' || c = '\t' || !(isCatC c)

/-- Tail of a CSI escape after `ESC [`: the pattern `[0-9;]*[a-zA-Z]` of
`ANSI_RE`.  Returns the remaining input after the final letter, together
with a proof that input was consumed. -/
def csiTail : (l : List Char) → Option { r : List Char // r.length < l.length }
  | [] => none
  | c :: rest =>
    if ('0' ≤ c ∧ c ≤ '9') ∨ c = ';' then
      match csiTail rest with
      | some ⟨r, hr⟩ => some ⟨r, Nat.lt_succ_of_lt hr⟩
      | none => none
    else if ('a' ≤ c ∧ c ≤ 'z') ∨ ('A' ≤ c ∧ c ≤ 'Z') then
      some ⟨rest, Nat.lt_succ_self _⟩
    else none

/-- Tail of an OSC escape after `ESC ]`: the lazy pattern `.*?\x07` of
`ANSI_RE` (where `.` does not match a newline). -/
def oscTail : (l : List Char) → Option { r : List Char // r.length < l.length }
  | [] => none
  | c :: rest =>
    if c = '\x07' then some ⟨rest, Nat.lt_succ_self _⟩
    else if c = '\n' then none
    else
      match oscTail rest with
      | some ⟨r, hr⟩ => some ⟨r, Nat.lt_succ_of_lt hr⟩
      | none => none

/-- Attempt to match the part of `ANSI_RE` that follows an ESC character:
`\[[0-9;]*[a-zA-Z]`, or `\].*?\x07`, or `[()][0-9A-B]` — the three
alternatives tried in source order. -/
def ansiTail : (l : List Char) → Option { r : List Char // r.length < l.length }
  | [] => none
  | c :: rest =>
    if c = '[' then
      match csiTail rest with
      | some ⟨r, hr⟩ => some ⟨r, Nat.lt_succ_of_lt hr⟩
      | none => none
    else if c = ']' then
      match oscTail rest with
      | some ⟨r, hr⟩ => some ⟨r, Nat.lt_succ_of_lt hr⟩
      | none => none
    else if c = '(' ∨ c = ')' then
      match rest with
      | d :: rest' =>
        if ('0' ≤ d ∧ d ≤ '9') ∨ d = 'A' ∨ d = 'B' then
          some ⟨rest', by simp [Nat.lt_succ_self, Nat.lt_succ_of_lt]⟩
        else none
      | [] => none
    else none

/-- Worker for `ansiSub`, structurally recursive on a fuel bound so that it
reduces inside the kernel.  `ansiTail` strictly consumes input, so any fuel
of at least the input length yields the untruncated scan. -/
def ansiSubGo : Nat → List Char → List Char
  | 0, _ => []
  | _, [] => []
  | fuel + 1, c :: rest =>
    if c = '\x1b' then
      match ansiTail rest with
      | some r => ansiSubGo fuel r.1
      | none => c :: ansiSubGo fuel rest
    else c :: ansiSubGo fuel rest

/-- `ANSI_RE.sub("", text)`: scan left to right; at each ESC character try
to match one of the three escape-sequence alternatives and delete it,
otherwise keep the character. -/
def ansiSub (l : List Char) : List Char :=
  ansiSubGo l.length l

/-- `sanitize_text` from `poll.py`: strip ANSI escape sequences, then drop
every remaining character of Unicode category C other than newline and
tab.  Total by construction. -/
def sanitize_text (s : String) : String :=
  String.mk ((ansiSub s.data).filter keepChar)

/-- Lower-case a character list (the effect of `re.IGNORECASE` on the ASCII
literal phrases appearing in the source patterns). -/
def lowerList (l : List Char) : List Char :=
  l.map Char.toLower

/-- Remainder of `hay` after the first occurrence of `pat`, or `none` if
`pat` does not occur.  Scanning for the leftmost occurrence is sound and
complete for deciding whether an alternation of literal phrases joined by
`.*` matches. -/
def dropThrough (pat : List Char) : List Char → Option (List Char)
  | [] => if pat.isEmpty then some [] else none
  | c :: t =>
    if pat.isPrefixOf (c :: t) then some ((c :: t).drop pat.length)
    else dropThrough pat t

/-- `phrase₁.*phrase₂.*…` search: the phrases occur in order, without
overlap, in the text. -/
def inOrder (hay : List Char) : List (List Char) → Bool
  | [] => true
  | p :: ps =>
    match dropThrough p hay with
    | some r => inOrder r ps
    | none => false

/-- Case-insensitive ordered-phrase search inside one line of text. -/
def inOrderLC (line : String) (ps : List String) : Bool :=
  inOrder (lowerList line.data) (ps.map fun p => lowerList p.data)

/-- Case-insensitive substring search. -/
def containsLC (s : String) (pat : String) : Bool :=
  (dropThrough (lowerList pat.data) (lowerList s.data)).isSome

/-- `SELECTOR_RE.search`: the three UI-chrome navigation-hint alternations
from `poll.py` (each `.*` stays within a line, since `.` does not match a
newline). -/
def selectorMatch (line : String) : Bool :=
  inOrderLC line ["Enter to select", "to navigate", "Esc to cancel"]
  || inOrderLC line ["Enter to confirm", "Esc to cancel"]
  || inOrderLC line ["Esc to cancel", "Tab to amend"]

/-- Split on `\n` (worker): the maximal newline-free chunks of a text,
the regions within which `.` can match. -/
def splitNlGo : List Char → List Char → List String
  | [], acc => [String.mk acc.reverse]
  | c :: rest, acc =>
    if c = '\n' then String.mk acc.reverse :: splitNlGo rest []
    else splitNlGo rest (c :: acc)

/-- Split a text on `\n`. -/
def splitNl (s : String) : List String :=
  splitNlGo s.data []

/-- `PROMPT_DETECT_RE.search` over the whole captured screen: the three
chrome alternations (each confined to a single line because `.` does not
match `\n`) or the literal phrase `Do you want to allow`. -/
def promptDetect (s : String) : Bool :=
  (splitNl s).any fun line =>
    selectorMatch line || containsLC line "Do you want to allow"

/-- `RATELIMIT_RE.search`: one of the four literal limit phrases occurs
(case-insensitively) in the text. -/
def ratelimitMatch (s : String) : Bool :=
  containsLC s "hit your limit" || containsLC s "usage limit reached"
  || containsLC s "limit will reset" || containsLC s "/upgrade to increase"

/-- Line separators remaining after `sanitize_text`: `str.splitlines`
breaks on several control characters as well, but the sanitizer removes
every one of them except `\n`, ` ` (Zl) and ` ` (Zp). -/
def isLineSep (c : Char) : Bool :=
  c = '\n' || c = '\u2028' || c = '\u2029'

/-- Worker for `pySplitlines`. -/
def splitlinesGo : List Char → List Char → List String
  | [], acc => [String.mk acc.reverse]
  | c :: rest, acc =>
    if isLineSep c then
      String.mk acc.reverse :: (if rest.isEmpty then [] else splitlinesGo rest [])
    else splitlinesGo rest (c :: acc)

/-- `str.splitlines()` on sanitized text: no entry for a trailing
terminator, and the empty string yields no lines. -/
def pySplitlines (s : String) : List String :=
  if s.data.isEmpty then [] else splitlinesGo s.data []

/-- `OPTION_RE.match(line)` with `OPTION_RE = ^[\s❯>]*(\d+)\.\s+(.+)$`:
returns the digit group and the raw text group.  The character classes are
disjoint from their successors, so the greedy stars are deterministic; the
interplay of the greedy `\s+` with the final `(.+)` is resolved exactly as
the backtracking engine does (give back trailing whitespace only when
nothing would remain for `(.+)`). -/
def optionMatch (line : String) : Option (String × String) :=
  let l1 := line.data.dropWhile fun c => pyIsSpace c || c = '❯' || c = '>'
  let ds := l1.takeWhile Char.isDigit
  let l2 := l1.dropWhile Char.isDigit
  if ds.isEmpty then none
  else
    match l2 with
    | '.' :: rest =>
      let sp := (rest.takeWhile pyIsSpace).length
      if sp = 0 then none
      else if sp + 1 ≤ rest.length then some (String.mk ds, String.mk (rest.drop sp))
      else if 2 ≤ rest.length then
        some (String.mk ds, String.mk (rest.drop (rest.length - 1)))
      else none
    | _ => none

/-- A separator line: every character of the stripped line is drawn from
the box/dash set `"─━─-_"` (the `all(...)` test in `parse_prompt_parts`). -/
def isSepLine (s : String) : Bool :=
  s.data.all fun c => c = '─' || c = '━' || c = '-' || c = '_'

/-- One iteration of the option-collection loop of `parse_prompt_parts`:
skip blank, separator and chrome-hint lines, then match `OPTION_RE` on the
unstripped line and render the option as `"{digits}. {label.strip()}"`. -/
def optionOfLine (line : String) : Option String :=
  let st := pyStrip line
  if st.data.isEmpty || isSepLine st || selectorMatch st then none
  else (optionMatch line).map fun p => p.1 ++ ". " ++ pyStrip p.2

/-- The option-collection loop of `parse_prompt_parts`: collect rendered
options in document order and record the index of the first matching line. -/
def promptScanGo (i : Nat) : List String → List String × Option Nat
  | [] => ([], none)
  | line :: rest =>
    let tl := promptScanGo (i + 1) rest
    match optionOfLine line with
    | some o => (o :: tl.1, some i)
    | none => tl

/-- Scan a screen's lines for numbered options. -/
def promptScan (lines : List String) : List String × Option Nat :=
  promptScanGo 0 lines

/-- One step of the backward question-recovery scan of
`parse_prompt_parts`: skip blank/separator/option lines, strip the leading
marker glyphs `[❓❯>?\s]+`, and accept the line when more than five
characters remain. -/
def qCandidate (line : String) : Option String :=
  let st := pyStrip line
  if st.data.isEmpty || isSepLine st then none
  else if (optionMatch line).isSome then none
  else
    let cleaned := pyStrip (String.mk (st.data.dropWhile fun c =>
      c = '❓' || c = '❯' || c = '>' || c = '?' || pyIsSpace c))
    if cleaned.data.isEmpty then none
    else if 5 < cleaned.length then some cleaned
    else none

/-- `PromptCandidate`: the structured result of `parse_prompt_parts`. -/
structure PromptParts where
  question : Option String
  options : List String
deriving DecidableEq, Repr

/-- `parse_prompt_parts` from `poll.py`: sanitize, split into lines,
collect options in order, and recover a question line by walking backward
from the first option. -/
def parse_prompt_parts (screen : String) : Option PromptParts :=
  let lines := pySplitlines (sanitize_text screen)
  let scanned := promptScan lines
  if scanned.1.isEmpty then none
  else
    let question :=
      match scanned.2 with
      | some i => ((lines.take i).reverse).findSome? qCandidate
      | none => none
    some ⟨question, scanned.1⟩

/-- `parse_prompt` from `poll.py`: flatten the parsed prompt to the message
text used for hashing and display — question (when present) and the joined
options, separated by a blank line. -/
def parse_prompt (screen : String) : Option String :=
  (parse_prompt_parts screen).map fun p =>
    match p.question with
    | some q => q ++ "\n\n" ++ String.intercalate "\n" p.options
    | none => String.intercalate "\n" p.options

/-- The MD5 hex digest, modelled as an injective fingerprint of the hashed
text: the source compares digests only for equality, so the identity
function preserves exactly the observable behaviour (assuming no MD5
collisions among captured screens). -/
def md5Hex (s : String) : String := s

/-- Outcome oracle for outbound Telegram sends: `sendOk = false` makes the
primary (formatted) send raise, triggering the plain-text fallback path. -/
structure Oracle where
  sendOk : Bool
deriving DecidableEq, Repr

/-- Send attempts made by `check_for_prompts`.  The message text carries
the composed body; the fallback resend is unformatted and, as in the
source, not truncated. -/
inductive PEmit where
  | withButtons (text : String) (buttons : List (String × String))
  | plainSend (text : String)
  | fallbackSend (text : String)
deriving DecidableEq, Repr

/-- `msg[:4000]`-style prefix truncation guarded by a length test, as at
the two emission sites in `poll.py`. -/
def pyTruncHead (s : String) (n : Nat) : String :=
  if n < s.length then String.mk (s.data.take n) else s

/-- Emoji palette for inline option buttons (`btn_emojis` in `poll.py`). -/
def btnEmojis : List String :=
  ["✅", "🔄", "✍️", "💬", "⭐", "🔗", "🔧", "⚙️"]

/-- `opt.split(".")[0].strip()`: the numeric part of a rendered option. -/
def optNum (opt : String) : String :=
  pyStrip (String.mk (opt.data.takeWhile (· ≠ '.')))

/-- `opt.split(".", 1)[1].strip() if "." in opt else opt`: the label part
of a rendered option. -/
def optLabel (opt : String) : String :=
  if opt.data.contains '.' then
    pyStrip (String.mk ((opt.data.dropWhile (· ≠ '.')).drop 1))
  else opt

/-- The inline-keyboard construction of `check_for_prompts`: one button per
option, an emoji from the palette (generic glyph beyond eight) prefixed to
the label, and the numeric index as callback payload. -/
def buildButtons (parsed : Option PromptParts) : List (String × String) :=
  match parsed with
  | none => []
  | some p =>
    if p.options.isEmpty then []
    else p.options.enum.map fun ie =>
      (btnEmojis.getD ie.1 "▶️" ++ " " ++ optLabel ie.2, optNum ie.2)

/-- One invocation of `check_for_prompts` from `poll.py`, as a transition
on the dedup hash `last_prompt_hash`.  `capture = none` models a
`capture_pane` exception.  Returns the new hash state and the send
attempts. -/
def check_for_prompts (st : Option String) (capture : Option String)
    (o : Oracle) : Option String × List PEmit :=
  match capture with
  | none => (st, [])
  | some raw =>
    let screen := pyStrip raw
    if screen.data.isEmpty then (st, [])
    else if !promptDetect screen then (none, [])
    else
      match parse_prompt screen with
      | none => (st, [])
      | some ptext =>
        let h := md5Hex ptext
        if st = some h then (st, [])
        else
          let buttons := buildButtons (parse_prompt_parts screen)
          let msg := pyTruncHead ("❓ *Prompt*\n\n" ++ ptext) 4000
          let primary :=
            if buttons.isEmpty then PEmit.plainSend msg
            else PEmit.withButtons msg buttons
          (some h,
           if o.sendOk then [primary]
           else [primary, PEmit.fallbackSend ("❓ Prompt\n\n" ++ ptext)])

/-- The mutable rate-limit state of `poll.py`: `last_ratelimit_hash` and
`ratelimit_waiting`. -/
structure RLState where
  lastHash : Option String
  waiting : Bool
deriving DecidableEq, Repr

/-- Send attempts made by `check_for_ratelimit`.  Limit notifications
carry the deduplicated content (the joined relevant lines); the full
outbound body additionally prepends a header and appends the extracted
reset-time fragment before prefix-truncation to 4000 characters — that
composition is referenced by no claim and is not reconstructed here. -/
inductive RLEmit where
  | recoverySend
  | limitSend (content : String)
  | limitFallback (content : String)
deriving DecidableEq, Repr

/-- Strip the leading terminal chrome `^[└│├─\s]+` from a relevant line and
strip whitespace again, as in `check_for_ratelimit`. -/
def chromeCleanLine (st : String) : String :=
  pyStrip (String.mk (st.data.dropWhile fun c =>
    c = '└' || c = '│' || c = '├' || c = '─' || pyIsSpace c))

/-- The relevant-line collection loop of `check_for_ratelimit`: keep every
stripped, nonblank line containing a limit phrase, cleaned of leading
chrome. -/
def rlRelevant (clean : String) : List String :=
  (pySplitlines clean).filterMap fun line =>
    let st := pyStrip line
    if st.data.isEmpty then none
    else if ratelimitMatch st then
      let cleaned := chromeCleanLine st
      if cleaned.data.isEmpty then none else some cleaned
    else none

/-- One invocation of `check_for_ratelimit` from `poll.py`, as a transition
on `RLState`.  `capture = none` models a `capture_pane` exception. -/
def check_for_ratelimit (st : RLState) (capture : Option String)
    (o : Oracle) : RLState × List RLEmit :=
  match capture with
  | none => (st, [])
  | some raw =>
    let clean := pyStrip (sanitize_text raw)
    if clean.data.isEmpty then (st, [])
    else if !ratelimitMatch clean then
      if st.waiting then (⟨none, false⟩, [RLEmit.recoverySend])
      else (⟨none, false⟩, [])
    else
      let relevant := rlRelevant clean
      if relevant.isEmpty then (st, [])
      else
        let content := String.intercalate "\n" relevant
        let h := md5Hex content
        if st.lastHash = some h then (st, [])
        else
          (⟨some h, true⟩,
           if o.sendOk then [RLEmit.limitSend content]
           else [RLEmit.limitSend content, RLEmit.limitFallback content])

/-- The prompt text `check_for_prompts` extracts and hashes from a capture,
when the capture passes the emptiness and chrome-detection gates. -/
def promptContent (raw : String) : Option String :=
  let screen := pyStrip raw
  if screen.data.isEmpty then none
  else if !promptDetect screen then none
  else parse_prompt screen

/-- The joined relevant-line content `check_for_ratelimit` extracts and
hashes from a capture, when the capture passes its gates. -/
def rlContent (raw : String) : Option String :=
  let clean := pyStrip (sanitize_text raw)
  if clean.data.isEmpty then none
  else if !ratelimitMatch clean then none
  else
    let relevant := rlRelevant clean
    if relevant.isEmpty then none
    else some (String.intercalate "\n" relevant)

/-- Does a capture show the rate-limit signature? (`RATELIMIT_RE` on the
sanitized, stripped screen.) -/
def rlHasSig (capture : Option String) : Bool :=
  match capture with
  | none => false
  | some s => ratelimitMatch (pyStrip (sanitize_text s))

/-- The initial rate-limit state at process startup: no stored hash, not
waiting. -/
def rlInit : RLState := ⟨none, false⟩

/-- Run `check_for_ratelimit` over a sequence of captures, collecting each
step's emissions. -/
def rlRunAux (st : RLState) (o : Oracle) : List (Option String) → List (List RLEmit)
  | [] => []
  | c :: cs =>
    let step := check_for_ratelimit st c o
    step.2 :: rlRunAux step.1 o cs

/-- Number of recovery notifications emitted over a run from startup. -/
def rlRunRecoveries (o : Oracle) (caps : List (Option String)) : Nat :=
  (((rlRunAux rlInit o caps).flatten).filter (· = RLEmit.recoverySend)).length

/-- The truncation marker of `truncate_message` in `notify.py`. -/
def truncMarker : String := "\n\n… [truncated] …\n\n"

/-- Python slice `s[:h]` for an arbitrary integer bound. -/
def pySliceTo (l : List Char) (h : Int) : List Char :=
  if 0 ≤ h then l.take h.toNat
  else l.take (l.length - min l.length (-h).toNat)

/-- Python slice `s[-t:]` for an arbitrary integer `t` (note `s[-0:]` is
the whole string). -/
def pySliceFromNeg (l : List Char) (t : Int) : List Char :=
  if t ≤ 0 then l.drop (-t).toNat
  else l.drop (l.length - min l.length t.toNat)

/-- `truncate_message` from `notify.py`: head/tail-preserving truncation —
reserve the marker, fill two thirds of the remaining budget from the start
and the rest from the end. -/
def truncate_message (text : String) (maxLength : Int) : String :=
  if (text.length : Int) ≤ maxLength then text
  else
    let available : Int := maxLength - (truncMarker.length : Int)
    let headLen : Int := Int.fdiv (available * 2) 3
    let tailLen : Int := available - headLen
    String.mk (pySliceTo text.data headLen ++ truncMarker.data
      ++ pySliceFromNeg text.data tailLen)

/-- Observable effects of one poll tick: tmux and Telegram operations, in
program order.  Message payloads of purely informational sends (help,
status, uptime, screen contents, error texts) are abstracted to short
markers; keystroke and wait parameters are kept exactly. -/
inductive TAction where
  | waitForInput (timeout : Nat)
  | sendKeys (text : String)
  | sendEscape
  | sleepPause
  | saveSnapshot
  | sendMessage (text : String)
  | answerCallback (qid : String) (text : String)
  | capturePane (n : Nat)
  | getFile (fileId : String)
  | downloadFile (dest : String)
deriving DecidableEq, Repr

/-- Outcome oracle for the effectful collaborators of the poll loop. -/
structure Env where
  waitOk : Bool
  keysOk : Bool
  downloadOk : Bool
deriving DecidableEq, Repr

/-- An inline-button callback, as consumed by `handle_callback`
(`cb["message"]["chat"]["id"]` may be absent). -/
structure CallbackQ where
  qid : String
  msgChatId : Option Int
  data : String
deriving DecidableEq, Repr

/-- An inbound chat message: originating chat, attachments, text and
caption (absent fields model as `none` / `""` / `[]`, mirroring
`dict.get` defaults).  A document is a `(file_id, file_name)` pair. -/
structure ChatMsg where
  chatId : Option Int
  photo : List String
  document : Option (String × String)
  text : String
  caption : String
deriving DecidableEq, Repr

/-- One Telegram update. -/
structure Update where
  updateId : Int
  callback : Option CallbackQ
  message : Option ChatMsg
deriving DecidableEq, Repr

/-- `text.strip().split(None, 1)` as used by `handle_command`: the
whitespace-delimited command word and the remaining argument text. -/
def splitCmd (text : String) : String × String :=
  let l := pyStripList text.data
  let cmd := l.takeWhile fun c => !pyIsSpace c
  let rest := (l.dropWhile fun c => !pyIsSpace c).dropWhile pyIsSpace
  (String.mk cmd, String.mk rest)

/-- `handle_command` from `poll.py`: dispatch a slash-command to its
effects.  Informational payloads are abstracted; keystroke payloads are
exact.  Returns the emitted actions (an unrecognised command emits none
and is ignored by the caller). -/
def handle_command (env : Env) (text : String) : List TAction :=
  let parts := splitCmd text
  let cmd := String.mk (lowerList parts.1.data)
  let arg := parts.2
  if cmd = "/ping" then [.sendMessage "pong"]
  else if cmd = "/esc" then
    if env.keysOk then [.sendEscape, .sendMessage "⏏️ Escape sent"]
    else [.sendEscape, .sendMessage "❌ Error"]
  else if cmd = "/help" then [.sendMessage "help"]
  else if cmd = "/status" then [.sendMessage "status"]
  else if cmd = "/view" || cmd = "/screen" then [.capturePane 50, .sendMessage "screen"]
  else if cmd = "/cd" && !arg.data.isEmpty then
    if env.keysOk then
      [.sendKeys ("cd " ++ arg), .sleepPause, .saveSnapshot, .sendMessage ("📨 Sent: cd " ++ arg)]
    else [.sendKeys ("cd " ++ arg), .sendMessage "❌ Error"]
  else if cmd = "/cmd" && !arg.data.isEmpty then
    if env.keysOk then
      [.sendKeys arg, .sleepPause, .saveSnapshot, .sendMessage ("📨 Sent: " ++ arg)]
    else [.sendKeys arg, .sendMessage "❌ Error"]
  else []

/-- `handle_callback` from `poll.py`: inject the selected option number
into tmux and acknowledge the button press (with an error acknowledgement
when injection fails). -/
def handle_callback (env : Env) (cb : CallbackQ) : List TAction :=
  if env.keysOk then
    [.sendKeys cb.data, .sleepPause, .saveSnapshot,
     .answerCallback cb.qid ("Sent: " ++ cb.data)]
  else [.sendKeys cb.data, .answerCallback cb.qid "Error"]

/-- The message composition of `send_files_to_claude` from `poll.py`: the
single injected message for a batch of downloaded `(path, caption)`
files — captions joined as the primary text when present, file paths
appended, with singular/plural phrasing. -/
def filesPrompt (files : List (String × String)) : String :=
  let paths := files.map Prod.fst
  let captions := (files.map Prod.snd).filter fun c => !c.data.isEmpty
  if !captions.isEmpty then
    let ct := String.intercalate " | " captions
    if paths.length = 1 then
      ct ++ "\n\n(Image attached from Telegram, saved at: " ++ paths.headD "" ++ ")"
    else
      ct ++ "\n\n(" ++ toString paths.length ++ " files attached from Telegram, saved at: "
        ++ String.intercalate " and " paths ++ ")"
  else
    if paths.length = 1 then
      "The user sent a file from Telegram. View it at: " ++ paths.headD ""
    else
      "The user sent " ++ toString paths.length ++ " files from Telegram. View them at: "
        ++ String.intercalate " and " paths

/-- `send_files_to_claude` (continued): the wait/warn/inject/confirm
effect sequence around the composed message. -/
def send_files_to_claude (env : Env) (files : List (String × String)) : List TAction :=
  let paths := files.map Prod.fst
  let prompt := filesPrompt files
  [TAction.waitForInput 30]
  ++ (if env.waitOk then []
      else [TAction.sendMessage "⚠️ Claude not at input prompt, file may need manual Enter"])
  ++ (if env.keysOk then
        [TAction.sendKeys prompt, TAction.sleepPause, TAction.saveSnapshot,
         TAction.sendMessage ("📷 " ++ (if paths.length = 1 then "Photo"
           else toString paths.length ++ " files") ++ " sent to Claude")]
      else [TAction.sendKeys prompt])

/-- The per-update dispatch of the `main` polling loop (`poll.py` lines
500–565): callback authorization, message authorization, photo/document
download and batching, slash-command dispatch, and plain-text injection.
Returns the emitted actions and the `(path, caption)` pairs appended to
the tick's pending file batch.  Download destination paths are abstracted
to the file identity (the source derives them from a timestamp and the
file name). -/
def processUpdate (chatId : Int) (env : Env) (u : Update) :
    List TAction × List (String × String) :=
  match u.callback with
  | some cb =>
    if cb.msgChatId = some chatId then (handle_callback env cb, [])
    else ([], [])
  | none =>
    match u.message with
    | none => ([], [])
    | some msg =>
      if msg.chatId ≠ some chatId then ([], [])
      else if !msg.photo.isEmpty then
        let fid := msg.photo.getLastD ""
        if env.downloadOk then ([.getFile fid, .downloadFile fid], [(fid, msg.caption)])
        else ([.getFile fid, .sendMessage "❌ Photo error"], [])
      else if msg.document.isSome then
        let d := msg.document.getD ("", "file")
        if env.downloadOk then ([.getFile d.1, .downloadFile d.2], [(d.2, msg.caption)])
        else ([.getFile d.1, .sendMessage "❌ File error"], [])
      else
        let text := if msg.text.data.isEmpty then msg.caption else msg.text
        if text.data.isEmpty then ([], [])
        else if text.data.headD ' ' = '/' then (handle_command env text, [])
        else if env.keysOk then
          ([.sendKeys text, .sleepPause, .saveSnapshot, .sendMessage "📨 Sent to Claude"], [])
        else ([.sendKeys text, .sendMessage "❌ Could not send"], [])

/-- Events of one tick of the update loop: cursor advancements
(`offset = update["update_id"] + 1`) interleaved with the handling
actions, in program order. -/
inductive Ev where
  | advance (cursor : Int)
  | act (a : TAction)
deriving DecidableEq, Repr

/-- The `for update in updates` loop of `main`: for each update, first set
the cursor past it, then handle it; collect pending attachment batches. -/
def processUpdates (chatId : Int) (env : Env) :
    List Update → List Ev × List (String × String)
  | [] => ([], [])
  | u :: rest =>
    let step := processUpdate chatId env u
    let tl := processUpdates chatId env rest
    (Ev.advance (u.updateId + 1) :: step.1.map Ev.act ++ tl.1, step.2 ++ tl.2)

/-- The cursor value after the loop: `offset` is overwritten to
`update_id + 1` for each update in order. -/
def finalCursor (offset : Option Int) : List Update → Option Int
  | [] => offset
  | u :: rest => finalCursor (some (u.updateId + 1)) rest

/-- The chat identifier a given update originates from: the callback's
embedded message chat when the update is a callback query, otherwise the
message's chat. -/
def originChat (u : Update) : Option Int :=
  match u.callback with
  | some cb => cb.msgChatId
  | none => u.message.bind (·.chatId)

/-- Is an event a cursor advancement? -/
def isAdvanceB (e : Ev) : Bool :=
  match e with
  | .advance _ => true
  | .act _ => false

/-- Is an event a handling action? -/
def isActB (e : Ev) : Bool :=
  match e with
  | .advance _ => false
  | .act _ => true

/-- Is an action a `wait_for_input` call? -/
def isWaitB (a : TAction) : Bool :=
  match a with
  | .waitForInput _ => true
  | _ => false

/-- Is an action a `send_keys` injection? -/
def isSendKeysB (a : TAction) : Bool :=
  match a with
  | .sendKeys _ => true
  | _ => false

/-- The cursor values appearing in an event trace, in order. -/
def advancesOf (evs : List Ev) : List Int :=
  evs.filterMap fun e =>
    match e with
    | .advance n => some n
    | .act _ => none

/-- Every handling action in the trace is preceded by some cursor
advancement (scanning state: has an advancement been seen?). -/
def actsAfterAdvanceGo (seen : Bool) : List Ev → Bool
  | [] => true
  | .advance _ :: r => actsAfterAdvanceGo true r
  | .act _ :: r => seen && actsAfterAdvanceGo seen r

/-- Every handling action in the trace is preceded by some cursor
advancement. -/
def actsAfterAdvance (evs : List Ev) : Bool :=
  actsAfterAdvanceGo false evs

/-- The trace pattern refuting "advance strictly after handling": the
trace opens with a cursor advancement and handling actions follow it. -/
def advanceThenActs (evs : List Ev) : Bool :=
  match evs with
  | .advance _ :: rest => rest.any isActB
  | _ => false

/-- Fixture: an all-success send oracle. -/
def oracleOk : Oracle := ⟨true⟩

/-- Fixture: an all-failure send oracle (formatted and fallback sends both
raise). -/
def oracleFail : Oracle := ⟨false⟩

/-- Fixture: all collaborators succeed. -/
def envOk : Env := ⟨true, true, true⟩

/-- Fixture: `wait_for_input` times out, everything else succeeds. -/
def envNoWait : Env := ⟨false, true, true⟩

/-- Fixture: a plain text message from the authorized chat 42. -/
def u0 : Update := ⟨7, none, some ⟨some 42, [], none, "hello", ""⟩⟩

/-- Fixture: a second plain text message from the authorized chat 42. -/
def u1 : Update := ⟨9, none, some ⟨some 42, [], none, "again", ""⟩⟩

/-- Fixture: a message from an unauthorized chat 99. -/
def uOther : Update := ⟨11, none, some ⟨some 99, [], none, "pwn", ""⟩⟩

/-- Fixture: two updates with strictly increasing identifiers. -/
def us2 : List Update := [u0, u1]

/-- Fixture: a rate-limit banner screen. -/
def rlLimitScreen : String :=
  "Claude usage limit reached. Your limit will reset at 6pm (Europe/Madrid)."

/-- Fixture: a choice-prompt screen. -/
def promptScreen1 : String := "Do you want to allow this?\n❯ 1. Yes\n  2. No"

/-- Fixture: the same screen with one option label changed by one
character. -/
def promptScreen2 : String := "Do you want to allow this?\n❯ 1. Yes\n  2. No!"

theorem ansiSubGo_of_no_esc : ∀ (n : Nat) (l : List Char), l.length ≤ n →
    (∀ c ∈ l, c ≠ '\x1b') → ansiSubGo n l = l := by
  intro n
  induction n with
  | zero =>
    intro l hl _
    cases l with
    | nil => rfl
    | cons c rest => simp at hl
  | succ m ih =>
    intro l hl hesc
    cases l with
    | nil => rfl
    | cons c rest =>
      have hc : c ≠ '\x1b' := hesc c (by simp)
      simp only [ansiSubGo, if_neg hc]
      have := ih rest (by simpa using Nat.le_of_succ_le_succ hl)
        (fun d hd => hesc d (by simp [hd]))
      rw [this]

theorem ansiSub_of_no_esc (l : List Char) (h : ∀ c ∈ l, c ≠ '\x1b') :
    ansiSub l = l :=
  ansiSubGo_of_no_esc l.length l (Nat.le_refl _) h

theorem keepChar_esc : keepChar '\x1b' = false := by decide

theorem no_esc_of_filter_keep (l : List Char) :
    ∀ c ∈ l.filter keepChar, c ≠ '\x1b' := by
  intro c hc
  have hk : keepChar c = true := (List.mem_filter.mp hc).2
  intro he
  rw [he, keepChar_esc] at hk
  exact Bool.false_ne_true hk

/-- **C8.** The text sanitizer is idempotent (and total by construction):
`sanitize_text (sanitize_text s) = sanitize_text s` for every input
string — the first pass leaves no ESC character for `ANSI_RE` to act on,
and the per-character category filter is idempotent. -/
theorem C8_sanitize_idempotent :
    ∀ s : String, sanitize_text (sanitize_text s) = sanitize_text s := by
  intro s
  show String.mk ((ansiSub (String.mk ((ansiSub s.data).filter keepChar)).data).filter keepChar)
    = String.mk ((ansiSub s.data).filter keepChar)
  have h1 : (String.mk ((ansiSub s.data).filter keepChar)).data
      = (ansiSub s.data).filter keepChar := rfl
  rw [h1, ansiSub_of_no_esc _ (no_esc_of_filter_keep _), List.filter_filter]
  simp only [Bool.and_self]

theorem promptScanGo_fst : ∀ (lines : List String) (i : Nat),
    (promptScanGo i lines).1 = lines.filterMap optionOfLine := by
  intro lines
  induction lines with
  | nil => intro i; rfl
  | cons line rest ih =>
    intro i
    simp only [promptScanGo, List.filterMap_cons]
    cases h : optionOfLine line with
    | none => simpa [h] using ih (i + 1)
    | some o => simpa [h] using ih (i + 1)

/-- **C6.** Option extraction preserves source order and original numeric
labels: the collected options are exactly the in-order `filterMap` of the
per-line matcher over the screen's lines, and the concrete screen
`"❯ 1. Yes\n  2. No"` parses to the options `1. Yes`, `2. No` in that
order, whose `(index, label)` button decomposition is
`[(1, "Yes"), (2, "No")]`. -/
theorem C6_option_order :
    (∀ lines : List String, (promptScan lines).1 = lines.filterMap optionOfLine)
    ∧ parse_prompt_parts "❯ 1. Yes\n  2. No"
        = some ⟨none, ["1. Yes", "2. No"]⟩
    ∧ (parse_prompt_parts "❯ 1. Yes\n  2. No").map
        (fun p => p.options.map fun o =>
          ((optNum o).data.foldl (fun a c => 10 * a + (c.toNat - 48)) 0, optLabel o))
        = some [(1, "Yes"), (2, "No")] := by
  refine ⟨fun lines => promptScanGo_fst lines 0, ?_, ?_⟩
  · decide
  · decide

theorem prompt_state_oracle (st : Option String) (cap : Option String) (o o' : Oracle) :
    (check_for_prompts st cap o).1 = (check_for_prompts st cap o').1 := by
  cases cap with
  | none => rfl
  | some raw =>
    simp only [check_for_prompts]
    repeat' split <;> try rfl

theorem prompt_rerun_nil (st : Option String) (s : String) (o o' : Oracle) :
    (check_for_prompts (check_for_prompts st (some s) o).1 (some s) o').2 = [] := by
  simp only [check_for_prompts]
  by_cases h1 : (pyStrip s).data.isEmpty
  · simp [h1]
  · by_cases h2 : promptDetect (pyStrip s)
    · cases hp : parse_prompt (pyStrip s) with
      | none => simp [h1, h2, hp]
      | some p =>
        by_cases h3 : st = some (md5Hex p)
        · simp [h1, h2, hp, h3]
        · simp [h1, h2, hp, h3]
    · simp [h1, h2]

theorem prompt_emit_new (st : Option String) (s : String) (o : Oracle) (c : String)
    (hc : promptContent s = some c) (hne : st ≠ some (md5Hex c)) :
    (check_for_prompts st (some s) o).2 ≠ []
    ∧ (check_for_prompts st (some s) o).1 = some (md5Hex c) := by
  unfold promptContent at hc
  by_cases h1 : (pyStrip s).data.isEmpty
  · simp [h1] at hc
  · by_cases h2 : promptDetect (pyStrip s)
    · simp [h1, h2] at hc
      simp only [check_for_prompts, h1, h2]
      simp only [Bool.not_true]
      simp only [hc]
      simp only [if_neg hne]
      cases o.sendOk <;> simp
    · simp [h1, h2] at hc

theorem rl_state_oracle (st : RLState) (cap : Option String) (o o' : Oracle) :
    (check_for_ratelimit st cap o).1 = (check_for_ratelimit st cap o').1 := by
  cases cap with
  | none => rfl
  | some raw =>
    simp only [check_for_ratelimit]
    repeat' split <;> try rfl

theorem rl_rerun_nil (st : RLState) (s : String) (o o' : Oracle) :
    (check_for_ratelimit (check_for_ratelimit st (some s) o).1 (some s) o').2 = [] := by
  simp only [check_for_ratelimit]
  by_cases h1 : (pyStrip (sanitize_text s)).data.isEmpty
  · simp [h1]
  · by_cases h2 : ratelimitMatch (pyStrip (sanitize_text s))
    · by_cases h3 : (rlRelevant (pyStrip (sanitize_text s))).isEmpty
      · simp [h1, h2, h3]
      · by_cases h4 : st.lastHash
          = some (md5Hex (String.intercalate "\n" (rlRelevant (pyStrip (sanitize_text s)))))
        · simp [h1, h2, h3, h4]
        · simp [h1, h2, h3, h4]
    · by_cases h5 : st.waiting <;> simp [h1, h2, h5]

theorem rl_emit_new (st : RLState) (s : String) (o : Oracle) (c : String)
    (hc : rlContent s = some c) (hne : st.lastHash ≠ some (md5Hex c)) :
    (check_for_ratelimit st (some s) o).2 ≠ []
    ∧ (check_for_ratelimit st (some s) o).1 = ⟨some (md5Hex c), true⟩ := by
  unfold rlContent at hc
  by_cases h1 : (pyStrip (sanitize_text s)).data.isEmpty
  · simp [h1] at hc
  · by_cases h2 : ratelimitMatch (pyStrip (sanitize_text s))
    · by_cases h3 : (rlRelevant (pyStrip (sanitize_text s))).isEmpty
      · simp [h1, h2, h3] at hc
      · simp [h1, h2, h3] at hc
        simp only [check_for_ratelimit, h1, h2, h3, Bool.not_true]
        simp only [hc] at hne ⊢
        simp only [if_neg hne]
        cases o.sendOk <;> simp
    · simp [h1, h2] at hc

theorem rl_no_recovery_when_match (st : RLState) (s : String) (o : Oracle)
    (h : ratelimitMatch (pyStrip (sanitize_text s)) = true) :
    RLEmit.recoverySend ∉ (check_for_ratelimit st (some s) o).2 := by
  simp only [check_for_ratelimit]
  by_cases h1 : (pyStrip (sanitize_text s)).data.isEmpty
  · simp [h1]
  · by_cases h3 : (rlRelevant (pyStrip (sanitize_text s))).isEmpty
    · simp [h1, h, h3]
    · by_cases h4 : st.lastHash
        = some (md5Hex (String.intercalate "\n" (rlRelevant (pyStrip (sanitize_text s)))))
      · simp [h1, h, h3, h4]
      · simp only [h1, h, h3, h4, Bool.not_true]
        cases o.sendOk <;> simp

theorem rl_no_recovery_not_waiting (st : RLState) (cap : Option String) (o : Oracle)
    (h : st.waiting = false) :
    RLEmit.recoverySend ∉ (check_for_ratelimit st cap o).2 := by
  cases cap with
  | none => simp [check_for_ratelimit]
  | some raw =>
    simp only [check_for_ratelimit]
    by_cases h1 : (pyStrip (sanitize_text raw)).data.isEmpty
    · simp [h1]
    · by_cases h2 : ratelimitMatch (pyStrip (sanitize_text raw))
      · by_cases h3 : (rlRelevant (pyStrip (sanitize_text raw))).isEmpty
        · simp [h1, h2, h3]
        · by_cases h4 : st.lastHash
            = some (md5Hex (String.intercalate "\n" (rlRelevant (pyStrip (sanitize_text raw)))))
          · simp [h1, h2, h3, h4]
          · simp only [h1, h2, h3, h4, Bool.not_true]
            cases o.sendOk <;> simp
      · simp [h1, h2, h]

theorem rl_recovery_fires (st : RLState) (s : String) (o : Oracle)
    (hw : st.waiting = true)
    (hne : ¬(pyStrip (sanitize_text s)).data.isEmpty)
    (hnm : ratelimitMatch (pyStrip (sanitize_text s)) = false) :
    check_for_ratelimit st (some s) o = (⟨none, false⟩, [RLEmit.recoverySend]) := by
  simp [check_for_ratelimit, hne, hnm, hw]

theorem rl_step_no_sig (st : RLState) (c : Option String) (o : Oracle)
    (hw : st.waiting = false) (hs : rlHasSig c = false) :
    (check_for_ratelimit st c o).2 = [] ∧ (check_for_ratelimit st c o).1.waiting = false := by
  cases c with
  | none => simpa [check_for_ratelimit] using hw
  | some raw =>
    simp only [rlHasSig] at hs
    simp only [check_for_ratelimit]
    by_cases h1 : (pyStrip (sanitize_text raw)).data.isEmpty
    · simp [h1, hw]
    · simp [h1, hs, hw]

theorem rlRunAux_no_sig (o : Oracle) : ∀ (caps : List (Option String)) (st : RLState),
    st.waiting = false → (∀ c ∈ caps, rlHasSig c = false) →
    ((rlRunAux st o caps).flatten.filter (· = RLEmit.recoverySend)).length = 0 := by
  intro caps
  induction caps with
  | nil => intro st _ _; rfl
  | cons c cs ih =>
    intro st hw hsig
    have hstep := rl_step_no_sig st c o hw (hsig c (by simp))
    simp only [rlRunAux, List.flatten_cons, hstep.1, List.nil_append,
      List.filter_nil]
    exact ih _ hstep.2 fun d hd => hsig d (by simp [hd])

/-- **C7.** Content-hash dedup, identically for both categories: a capture
whose extracted content hashes differently from the stored hash yields an
emission and stores the new hash; an immediately repeated identical
capture yields no second emission.  Changing a single character of the
content changes the (injective) fingerprint, so the first conjunct also
gives the second emission with the new hash stored. -/
theorem C7_dedup :
    (∀ (st : Option String) (s : String) (o : Oracle) (c : String),
        promptContent s = some c → st ≠ some (md5Hex c) →
        (check_for_prompts st (some s) o).2 ≠ []
        ∧ (check_for_prompts st (some s) o).1 = some (md5Hex c))
    ∧ (∀ (st : Option String) (s : String) (o o' : Oracle),
        (check_for_prompts (check_for_prompts st (some s) o).1 (some s) o').2 = [])
    ∧ (∀ (st : RLState) (s : String) (o : Oracle) (c : String),
        rlContent s = some c → st.lastHash ≠ some (md5Hex c) →
        (check_for_ratelimit st (some s) o).2 ≠ []
        ∧ (check_for_ratelimit st (some s) o).1 = ⟨some (md5Hex c), true⟩)
    ∧ (∀ (st : RLState) (s : String) (o o' : Oracle),
        (check_for_ratelimit (check_for_ratelimit st (some s) o).1 (some s) o').2 = []) :=
  ⟨prompt_emit_new, prompt_rerun_nil, rl_emit_new, rl_rerun_nil⟩

/-- Witness for **C7** at concrete screens: the prompt screen emits once
from a clean state, a repeat of the same screen is suppressed, and the
one-character change `No` → `No!` emits again with the new hash stored;
likewise the rate-limit banner emits once and its repeat is suppressed. -/
theorem C7_dedup_witness :
    promptContent promptScreen1 = some "Do you want to allow this?\n\n1. Yes\n2. No"
    ∧ ((check_for_prompts none (some promptScreen1) oracleOk).2 ≠ []
        ∧ (check_for_prompts none (some promptScreen1) oracleOk).1
            = some (md5Hex "Do you want to allow this?\n\n1. Yes\n2. No"))
    ∧ (check_for_prompts (check_for_prompts none (some promptScreen1) oracleOk).1
        (some promptScreen1) oracleOk).2 = []
    ∧ promptContent promptScreen2 = some "Do you want to allow this?\n\n1. Yes\n2. No!"
    ∧ ((check_for_prompts (some (md5Hex "Do you want to allow this?\n\n1. Yes\n2. No"))
          (some promptScreen2) oracleOk).2 ≠ []
        ∧ (check_for_prompts (some (md5Hex "Do you want to allow this?\n\n1. Yes\n2. No"))
            (some promptScreen2) oracleOk).1
            = some (md5Hex "Do you want to allow this?\n\n1. Yes\n2. No!"))
    ∧ ((check_for_ratelimit rlInit (some rlLimitScreen) oracleOk).2 ≠ []
        ∧ (check_for_ratelimit rlInit (some rlLimitScreen) oracleOk).1
            = ⟨some (md5Hex "Claude usage limit reached. Your limit will reset at 6pm (Europe/Madrid).") , true⟩)
    ∧ (check_for_ratelimit (check_for_ratelimit rlInit (some rlLimitScreen) oracleOk).1
        (some rlLimitScreen) oracleOk).2 = [] :=
  ⟨by decide,
   C7_dedup.1 none promptScreen1 oracleOk _ (by decide) (by decide),
   C7_dedup.2.1 none promptScreen1 oracleOk oracleOk,
   by decide,
   C7_dedup.1 (some (md5Hex "Do you want to allow this?\n\n1. Yes\n2. No"))
     promptScreen2 oracleOk _ (by decide) (by decide),
   C7_dedup.2.2.1 rlInit rlLimitScreen oracleOk _ (by decide) (by decide),
   C7_dedup.2.2.2 rlInit rlLimitScreen oracleOk oracleOk⟩

/-- **C10.** The dedup hash is stored independently of send success: the
post-state of either classifier does not depend on the send oracle, and —
in particular with every send attempt failing — a second check of the
unchanged screen emits nothing, so an undelivered notification stays
suppressed. -/
theorem C10_dedup_before_send :
    (∀ (st : Option String) (cap : Option String) (o o' : Oracle),
        (check_for_prompts st cap o).1 = (check_for_prompts st cap o').1)
    ∧ (∀ (st : RLState) (cap : Option String) (o o' : Oracle),
        (check_for_ratelimit st cap o).1 = (check_for_ratelimit st cap o').1)
    ∧ (∀ (st : Option String) (s : String) (o' : Oracle),
        (check_for_prompts (check_for_prompts st (some s) oracleFail).1 (some s) o').2 = [])
    ∧ (∀ (st : RLState) (s : String) (o' : Oracle),
        (check_for_ratelimit (check_for_ratelimit st (some s) oracleFail).1 (some s) o').2 = []) :=
  ⟨prompt_state_oracle, rl_state_oracle,
   fun st s o' => prompt_rerun_nil st s oracleFail o',
   fun st s o' => rl_rerun_nil st s oracleFail o'⟩

/-- **C2 (amended).** Rate-limit recovery: never emitted while the limit
signature is present; never emitted on a run from startup in which no
capture ever shows the signature; emitted exactly (and only) on a
transition from the waiting state to a capture whose sanitized text is
*nonempty* and lacks the signature, which also resets the state; and never
emitted when not waiting.  (The claim's unqualified "any screen without
the signature" fails: captures that sanitize to empty text are skipped
entirely — see the counterexample.) -/
theorem C2_recovery_amended :
    (∀ (st : RLState) (s : String) (o : Oracle),
        ratelimitMatch (pyStrip (sanitize_text s)) = true →
        RLEmit.recoverySend ∉ (check_for_ratelimit st (some s) o).2)
    ∧ (∀ (o : Oracle) (caps : List (Option String)),
        (∀ c ∈ caps, rlHasSig c = false) → rlRunRecoveries o caps = 0)
    ∧ (∀ (st : RLState) (s : String) (o : Oracle),
        st.waiting = true → ¬(pyStrip (sanitize_text s)).data.isEmpty →
        ratelimitMatch (pyStrip (sanitize_text s)) = false →
        check_for_ratelimit st (some s) o = (⟨none, false⟩, [RLEmit.recoverySend]))
    ∧ (∀ (st : RLState) (cap : Option String) (o : Oracle),
        st.waiting = false →
        RLEmit.recoverySend ∉ (check_for_ratelimit st cap o).2) :=
  ⟨rl_no_recovery_when_match,
   fun o caps h => rlRunAux_no_sig o caps rlInit rfl h,
   rl_recovery_fires,
   rl_no_recovery_not_waiting⟩

/-- Counterexample for **C2** as stated: after the rate-limit banner put
the classifier in the waiting state, a capture that is empty (and so
certainly lacks the limit signature) produces *no* recovery notification —
the limited→clear transition claim fails on empty screens. -/
theorem C2_counterexample :
    rlHasSig (some rlLimitScreen) = true
    ∧ rlHasSig (some "") = false
    ∧ (check_for_ratelimit rlInit (some rlLimitScreen) oracleOk).1.waiting = true
    ∧ rlRunRecoveries oracleOk [some rlLimitScreen, some ""] = 0 := by
  decide

/-- Witness for **C2 (amended)** at concrete screens: a banner, then a
nonempty ordinary screen — exactly one recovery, and the state resets. -/
theorem C2_recovery_witness :
    (⟨some (md5Hex "Claude usage limit reached. Your limit will reset at 6pm (Europe/Madrid)."),
        true⟩ : RLState).waiting = true
    ∧ ¬(pyStrip (sanitize_text "all good now")).data.isEmpty
    ∧ ratelimitMatch (pyStrip (sanitize_text "all good now")) = false
    ∧ check_for_ratelimit
        ⟨some (md5Hex "Claude usage limit reached. Your limit will reset at 6pm (Europe/Madrid)."), true⟩
        (some "all good now") oracleOk
        = (⟨none, false⟩, [RLEmit.recoverySend]) :=
  ⟨rfl, by decide, by decide,
   C2_recovery_amended.2.2.1
     ⟨some (md5Hex "Claude usage limit reached. Your limit will reset at 6pm (Europe/Madrid)."), true⟩
     "all good now" oracleOk rfl (by decide) (by decide)⟩

/-- **C5 (amended).** For every capture that is *nonempty after stripping*
and lacks the coarse chrome-hint phrases, `check_for_prompts` emits
nothing and clears the stored prompt hash, regardless of option-like
lines.  (The unqualified claim fails on captures that strip to empty: the
early return skips the hash clear — see the counterexample.) -/
theorem C5_no_chrome_amended :
    ∀ (st : Option String) (cap : String) (o : Oracle),
    ¬(pyStrip cap).data.isEmpty → promptDetect (pyStrip cap) = false →
    check_for_prompts st (some cap) o = (none, []) := by
  intro st cap o h1 h2
  simp [check_for_prompts, h1, h2]

/-- Counterexample for **C5** as stated: a whitespace-only capture
contains none of the chrome-hint phrases, yet the classifier returns with
the stale stored hash intact instead of clearing it. -/
theorem C5_counterexample :
    promptDetect "   " = false
    ∧ check_for_prompts (some "stalehash") (some "   ") oracleOk
        = (some "stalehash", []) := by
  decide

/-- Witness for **C5 (amended)**: a nonempty screen full of option-like
lines but with no chrome phrases yields no emission and a cleared hash. -/
theorem C5_no_chrome_witness :
    ¬(pyStrip "some output\n1. Yes\n2. No").data.isEmpty
    ∧ promptDetect (pyStrip "some output\n1. Yes\n2. No") = false
    ∧ check_for_prompts (some "stale") (some "some output\n1. Yes\n2. No") oracleOk
        = (none, []) :=
  ⟨by decide, by decide,
   C5_no_chrome_amended (some "stale") "some output\n1. Yes\n2. No" oracleOk
     (by decide) (by decide)⟩

/-- **C9.** Single-chat access control: an update whose originating chat
identifier differs from the configured one (including updates with no
identifiable chat) produces no actions at all — no command dispatch, no
download, no keystroke injection — and contributes nothing to the file
batch. -/
theorem C9_only_authorized_chat :
    ∀ (cid : Int) (env : Env) (u : Update),
    originChat u ≠ some cid → processUpdate cid env u = ([], []) := by
  intro cid env u h
  unfold processUpdate
  cases hcb : u.callback with
  | some cb =>
    simp only [originChat, hcb] at h
    simp [h]
  | none =>
    cases hm : u.message with
    | none => simp
    | some m =>
      have h' : m.chatId ≠ some cid := by simpa [originChat, hcb, hm] using h
      simp [h']

/-- Witness for **C9**: a message from chat 99 against configured chat 42
is dropped entirely. -/
theorem C9_only_authorized_chat_witness :
    originChat uOther ≠ some 42 ∧ processUpdate 42 envOk uOther = ([], []) :=
  ⟨by decide, C9_only_authorized_chat 42 envOk uOther (by decide)⟩

theorem no_wait_handle_command (env : Env) (txt : String) (t : Nat) :
    TAction.waitForInput t ∉ handle_command env txt := by
  unfold handle_command
  by_cases h1 : String.mk (lowerList (splitCmd txt).1.data) = "/ping" <;>
  by_cases h2 : String.mk (lowerList (splitCmd txt).1.data) = "/esc" <;>
  by_cases h3 : String.mk (lowerList (splitCmd txt).1.data) = "/help" <;>
  by_cases h4 : String.mk (lowerList (splitCmd txt).1.data) = "/status" <;>
  by_cases h5 : String.mk (lowerList (splitCmd txt).1.data) = "/view" ∨
    String.mk (lowerList (splitCmd txt).1.data) = "/screen" <;>
  by_cases h6 : String.mk (lowerList (splitCmd txt).1.data) = "/cd" ∧ ¬(splitCmd txt).2.data = [] <;>
  by_cases h7 : String.mk (lowerList (splitCmd txt).1.data) = "/cmd" ∧ ¬(splitCmd txt).2.data = [] <;>
  by_cases h8 : env.keysOk = true <;>
  simp [h1, h2, h3, h4, h5, h6, h7, h8]

theorem no_wait_handle_callback (env : Env) (cb : CallbackQ) (t : Nat) :
    TAction.waitForInput t ∉ handle_callback env cb := by
  unfold handle_callback
  split_ifs <;> simp

/-- **C3 (amended).** Only the attachment-batch injection is guarded by
the idle wait: `send_files_to_claude` always calls `wait_for_input` with a
30 second bound first, on timeout surfaces the warning to the chat and
still injects; a forwarded plain chat message (and every other per-update
path) performs *no* `wait_for_input` at all before injection. -/
theorem C3_wait_amended :
    (∀ (env : Env) (files : List (String × String)),
        (send_files_to_claude env files).head? = some (TAction.waitForInput 30))
    ∧ (∀ (env : Env) (files : List (String × String)), env.waitOk = false →
        TAction.sendMessage "⚠️ Claude not at input prompt, file may need manual Enter"
          ∈ send_files_to_claude env files)
    ∧ (∀ (env : Env) (files : List (String × String)),
        ∃ p, TAction.sendKeys p ∈ send_files_to_claude env files)
    ∧ (∀ (cid : Int) (env : Env) (u : Update) (t : Nat),
        TAction.waitForInput t ∉ (processUpdate cid env u).1) := by
  refine ⟨?_, ?_, ?_, ?_⟩
  · intro env files
    simp [send_files_to_claude]
  · intro env files h
    simp [send_files_to_claude, h]
  · intro env files
    refine ⟨filesPrompt files, ?_⟩
    cases hk : env.keysOk <;> cases hw : env.waitOk <;>
      simp [send_files_to_claude, hk, hw]
  · intro cid env u t
    unfold processUpdate
    cases u.callback with
    | some cb =>
      by_cases h : cb.msgChatId = some cid <;>
        simp [h, no_wait_handle_callback env cb t]
    | none =>
      cases u.message with
      | none => simp
      | some m =>
        by_cases hA : m.chatId = some cid <;>
        by_cases hB : m.photo.isEmpty <;>
        by_cases hC : m.document.isSome <;>
        by_cases hD : env.downloadOk <;>
        by_cases hE : (if m.text.data.isEmpty then m.caption else m.text).data.isEmpty <;>
        by_cases hF : ((if m.text.data.isEmpty then m.caption else m.text).data.headD ' ') = '/' <;>
        by_cases hG : env.keysOk <;>
        simp_all [no_wait_handle_command env]

/-- Witness for **C3 (amended)**: one captioned attachment with the wait
timing out — the wait comes first, the warning is surfaced, and the
composed message is still injected. -/
theorem C3_wait_witness :
    (send_files_to_claude envNoWait [("a.jpg", "cap")]).head?
        = some (TAction.waitForInput 30)
    ∧ envNoWait.waitOk = false
    ∧ TAction.sendMessage "⚠️ Claude not at input prompt, file may need manual Enter"
        ∈ send_files_to_claude envNoWait [("a.jpg", "cap")]
    ∧ TAction.sendKeys (filesPrompt [("a.jpg", "cap")])
        ∈ send_files_to_claude envNoWait [("a.jpg", "cap")] :=
  ⟨C3_wait_amended.1 envNoWait [("a.jpg", "cap")], rfl,
   C3_wait_amended.2.1 envNoWait [("a.jpg", "cap")] rfl, by decide⟩

/-- Counterexample for **C3** as stated: a forwarded plain chat message is
injected with *no* preceding `wait_for_input` call — the handling trace
contains the keystroke injection and no wait at all. -/
theorem C3_counterexample :
    (processUpdate 42 envOk u0).1
      = [TAction.sendKeys "hello", TAction.sleepPause, TAction.saveSnapshot,
         TAction.sendMessage "📨 Sent to Claude"]
    ∧ ((processUpdate 42 envOk u0).1.any isWaitB) = false
    ∧ ((processUpdate 42 envOk u0).1.any isSendKeysB) = true := by
  decide

theorem advancesOf_acts_append (acts : List TAction) (evs : List Ev) :
    advancesOf (acts.map Ev.act ++ evs) = advancesOf evs := by
  induction acts with
  | nil => rfl
  | cons a r ih => simp only [List.cons_append, advancesOf, List.filterMap_cons]; exact ih

theorem advancesOf_processUpdates (cid : Int) (env : Env) :
    ∀ us : List Update,
    advancesOf (processUpdates cid env us).1 = us.map (fun u => u.updateId + 1) := by
  intro us
  induction us with
  | nil => rfl
  | cons u rest ih =>
    simp only [processUpdates, List.map_cons, List.cons_append]
    have h1 : advancesOf (Ev.advance (u.updateId + 1)
          :: ((processUpdate cid env u).1.map Ev.act ++ (processUpdates cid env rest).1))
        = (u.updateId + 1)
          :: advancesOf ((processUpdate cid env u).1.map Ev.act ++ (processUpdates cid env rest).1) := by
      simp [advancesOf, List.filterMap_cons]
    rw [h1, advancesOf_acts_append, ih]

theorem actsAfterAdvanceGo_acts (acts : List TAction) (evs : List Ev) :
    actsAfterAdvanceGo true (acts.map Ev.act ++ evs) = actsAfterAdvanceGo true evs := by
  induction acts with
  | nil => rfl
  | cons a r ih => simpa [actsAfterAdvanceGo] using ih

theorem actsAfterAdvanceGo_processUpdates (cid : Int) (env : Env) :
    ∀ (us : List Update) (seen : Bool),
    actsAfterAdvanceGo seen (processUpdates cid env us).1 = true := by
  intro us
  induction us with
  | nil => intro seen; rfl
  | cons u rest ih =>
    intro seen
    simp only [processUpdates, List.cons_append]
    have h1 : actsAfterAdvanceGo seen (Ev.advance (u.updateId + 1)
          :: ((processUpdate cid env u).1.map Ev.act ++ (processUpdates cid env rest).1))
        = actsAfterAdvanceGo true
            ((processUpdate cid env u).1.map Ev.act ++ (processUpdates cid env rest).1) := rfl
    rw [h1, actsAfterAdvanceGo_acts]
    exact ih true

theorem finalCursor_bound : ∀ (us : List Update) (prev : Int),
    List.Chain' (· < ·) (prev :: us.map (·.updateId)) →
    ∃ v, finalCursor (some (prev + 1)) us = some v ∧ prev < v
      ∧ ∀ u ∈ us, u.updateId < v := by
  intro us
  induction us with
  | nil =>
    intro prev _
    exact ⟨prev + 1, rfl, by omega, by simp⟩
  | cons u rest ih =>
    intro prev hch
    simp only [List.map_cons, List.chain'_cons] at hch
    have h12 : prev < u.updateId := hch.1
    obtain ⟨v, hv, hlt, hall⟩ := ih u.updateId (by simpa using hch.2)
    refine ⟨v, by simpa [finalCursor] using hv, by omega, ?_⟩
    intro w hw
    rcases List.mem_cons.mp hw with h | h
    · rw [h]; exact hlt
    · exact hall w h

/-- **C4 (amended).** In the update loop the cursor is advanced past each
update *before* (not after) that update is handled: every handling action
in the tick's trace is preceded by a cursor advancement, and the
advancements are exactly `update_id + 1` in delivery order.  Given the
transport delivers updates with strictly increasing identifiers, the
advancement sequence is strictly increasing and the final cursor exceeds
every processed update's identifier, so a subsequent `get_updates` from
that cursor cannot redeliver any of them — at-most-once consumption
holds (and would hold even if handling an update failed midway). -/
theorem C4_cursor_amended :
    ∀ (cid : Int) (env : Env) (us : List Update),
    advancesOf (processUpdates cid env us).1 = us.map (fun u => u.updateId + 1)
    ∧ actsAfterAdvance (processUpdates cid env us).1 = true
    ∧ (List.Chain' (· < ·) (us.map (·.updateId)) →
        List.Chain' (· < ·) (advancesOf (processUpdates cid env us).1)
        ∧ ∀ (off : Option Int), ∀ u ∈ us,
            ∃ v, finalCursor off us = some v ∧ u.updateId < v) := by
  intro cid env us
  refine ⟨advancesOf_processUpdates cid env us,
    actsAfterAdvanceGo_processUpdates cid env us false, fun hch => ⟨?_, ?_⟩⟩
  · rw [advancesOf_processUpdates cid env us]
    rw [List.chain'_map] at hch ⊢
    exact hch.imp fun h => by omega
  · intro off u hu
    cases us with
    | nil => cases hu
    | cons w rest =>
      have hch' : List.Chain' (· < ·) (w.updateId :: rest.map (·.updateId)) := by
        simpa using hch
      obtain ⟨v, hv, hwv, hall⟩ := finalCursor_bound rest w.updateId hch'
      refine ⟨v, by simpa [finalCursor] using hv, ?_⟩
      rcases List.mem_cons.mp hu with h | h
      · rw [h]; omega
      · exact hall u h

/-- Counterexample for **C4** as stated: handling one update, the cursor
advancement is the *first* event of the trace and the handling actions
follow it — the cursor is not advanced "strictly after the update has been
fully handled". -/
theorem C4_counterexample :
    (processUpdates 42 envOk [u0]).1
      = [Ev.advance 8, Ev.act (TAction.sendKeys "hello"), Ev.act TAction.sleepPause,
         Ev.act TAction.saveSnapshot, Ev.act (TAction.sendMessage "📨 Sent to Claude")]
    ∧ advanceThenActs (processUpdates 42 envOk [u0]).1 = true := by
  decide

/-- Witness for **C4 (amended)** on two updates with identifiers 7 and 9:
the advancement sequence `[8, 10]` is strictly increasing and the final
cursor 10 exceeds both identifiers. -/
theorem C4_cursor_witness :
    List.Chain' (· < ·) (us2.map (·.updateId))
    ∧ List.Chain' (· < ·) (advancesOf (processUpdates 42 envOk us2).1)
    ∧ (∃ v, finalCursor none us2 = some v ∧ u1.updateId < v) :=
  ⟨by simp [us2, u0, u1, List.chain'_cons],
   ((C4_cursor_amended 42 envOk us2).2.2 (by simp [us2, u0, u1, List.chain'_cons])).1,
   ((C4_cursor_amended 42 envOk us2).2.2 (by simp [us2, u0, u1, List.chain'_cons])).2
     none u1 (by decide)⟩

/-- **C1 (amended).** The head/tail truncation law holds for
`truncate_message` whenever the maximum length exceeds the marker length
by at least 2: the result length is at most (indeed, when truncating,
exactly) `L`, and a text longer than `L` is rendered as a non-empty prefix
(two thirds of the remaining budget, by flooring), the fixed marker, and a
non-empty suffix of the original.  At `L = markerLength` the result
overflows `L`, and at `L = markerLength + 1` the preserved prefix is
empty — see the counterexample — so the claim's bound `L ≥ markerLength`
is off by two.  (The engine's own emission sites in `poll.py` instead
truncate to a plain 4000-character prefix, `pyTruncHead`, which
preserves no suffix at all.) -/
theorem C1_truncation_amended :
    ∀ (text : String) (L : Int), (truncMarker.length : Int) + 2 ≤ L →
    ((truncate_message text L).length : Int) ≤ L
    ∧ (L < (text.length : Int) →
        ∃ hN tN : Nat, 1 ≤ hN ∧ 1 ≤ tN
          ∧ hN = (L.toNat - truncMarker.length) * 2 / 3
          ∧ hN + tN + truncMarker.length = L.toNat
          ∧ truncate_message text L
              = String.mk (text.data.take hN ++ truncMarker.data
                  ++ text.data.drop (text.data.length - tN))) := by
  intro text L hL
  have hmlen : truncMarker.length = 19 := rfl
  rw [hmlen] at hL
  by_cases hlen : (text.length : Int) ≤ L
  · refine ⟨?_, fun hlt => absurd hlen (not_le.mpr hlt)⟩
    simp only [truncate_message, if_pos hlen]
    exact hlen
  · have hlt : L < (text.length : Int) := lt_of_not_ge hlen
    -- abbreviations
    set len := text.data.length with hlendef
    have hlen' : text.length = len := rfl
    set aN : Nat := L.toNat - 19 with haN
    set hN : Nat := aN * 2 / 3 with hhN
    set tN : Nat := aN - hN with htN
    have hA2 : 2 ≤ aN := by omega
    have hNlt : hN < aN := by
      rw [hhN]
      exact Nat.div_lt_of_lt_mul (by omega)
    have hN1 : 1 ≤ hN := by
      rw [hhN]
      exact Nat.one_le_div_iff (by norm_num) |>.mpr (by omega)
    have htN1 : 1 ≤ tN := by omega
    have hlenN : L.toNat < len := by omega
    -- the available budget as an integer
    have havail : L - (truncMarker.length : Int) = (aN : Int) := by
      rw [hmlen]; omega
    have hfdiv : Int.fdiv ((aN : Int) * 2) 3 = (hN : Int) := by
      rw [Int.fdiv_eq_tdiv (by positivity) (by norm_num), hhN]
      rw [show ((aN : Int) * 2) = ((aN * 2 : Nat) : Int) by push_cast; ring]
      rw [show (3 : Int) = ((3 : Nat) : Int) by norm_num]
      rw [← Int.ofNat_tdiv]
    have htail : (aN : Int) - (hN : Int) = (tN : Int) := by omega
    have hslice1 : pySliceTo text.data ((hN : Nat) : Int) = text.data.take hN := by
      simp [pySliceTo]
    have hslice2 : pySliceFromNeg text.data ((tN : Nat) : Int)
        = text.data.drop (len - tN) := by
      simp only [pySliceFromNeg, if_neg (by omega : ¬((tN : Int) ≤ 0))]
      rw [Int.toNat_natCast]
      rw [Nat.min_eq_right (by omega : tN ≤ text.data.length)]
    have hteq : truncate_message text L
        = String.mk (text.data.take hN ++ truncMarker.data
            ++ text.data.drop (len - tN)) := by
      simp only [truncate_message, if_neg hlen]
      rw [havail, hfdiv, htail, hslice1, hslice2]
    refine ⟨?_, fun _ => ⟨hN, tN, hN1, htN1, rfl, by rw [hmlen]; omega, ?_⟩⟩
    · rw [hteq]
      have : (String.mk (text.data.take hN ++ truncMarker.data
          ++ text.data.drop (len - tN))).length
          = hN + 19 + tN := by
        simp only [String.length, List.length_append, List.length_take, List.length_drop]
        have : truncMarker.data.length = 19 := rfl
        omega
      rw [this]; omega
    · rw [hteq]

/-- Counterexample for **C1** as stated: at the admissible bound
`L = markerLength = 19`, a 20-character text truncates to 39 characters —
`available` is zero, so the head slice is empty and the Python tail slice
`text[-0:]` is the *whole* text, violating the length bound (and the
non-empty-prefix requirement). -/
theorem C1_counterexample :
    (truncMarker.length : Int) ≤ 19
    ∧ (truncate_message "aaaaaaaaaaaaaaaaaaaa" 19).length = 39
    ∧ ¬(((truncate_message "aaaaaaaaaaaaaaaaaaaa" 19).length : Int) ≤ 19) := by
  refine ⟨by decide, by decide, by decide⟩

/-- Witness for **C1 (amended)** at a 32-character text and `L = 25`. -/
theorem C1_truncation_witness :
    (truncMarker.length : Int) + 2 ≤ 25
    ∧ ((truncate_message "abcdefghijklmnopqrstuvwxyz012345" 25).length : Int) ≤ 25
    ∧ ((25 : Int) < ("abcdefghijklmnopqrstuvwxyz012345".length : Int) →
        ∃ hN tN : Nat, 1 ≤ hN ∧ 1 ≤ tN
          ∧ hN = ((25 : Int).toNat - truncMarker.length) * 2 / 3
          ∧ hN + tN + truncMarker.length = (25 : Int).toNat
          ∧ truncate_message "abcdefghijklmnopqrstuvwxyz012345" 25
              = String.mk ("abcdefghijklmnopqrstuvwxyz012345".data.take hN
                  ++ truncMarker.data
                  ++ "abcdefghijklmnopqrstuvwxyz012345".data.drop
                      ("abcdefghijklmnopqrstuvwxyz012345".data.length - tN))) :=
  ⟨by decide,
   (C1_truncation_amended "abcdefghijklmnopqrstuvwxyz012345" 25 (by decide)).1,
   (C1_truncation_amended "abcdefghijklmnopqrstuvwxyz012345" 25 (by decide)).2⟩
